import Mathlib

set_option allowUnsafeReducibility true

/- Batteries marks the `Rat` arithmetic operations `@[irreducible]`; re-allow
unfolding them so concrete runs of the pipeline below can be evaluated inside
proofs by `decide`. -/
attribute [local semireducible] Rat.add Rat.sub Rat.mul Rat.div Rat.inv

/-!
Shallow embedding of `src/server/python_microservice/session_monitor.py`
(the session state and security-analysis pipeline).

Modelling conventions:
* Timestamps and risk scores are rationals (`ℚ`), in seconds.
* `datetime.utcnow()` is read once per processed event and passed in as `now`;
  the pipeline stamps the event with it (line 203) and the analyzer's later
  clock reads (lines 310, 339) happen within the same processing step and are
  modelled by the same value.
* `self.active_sessions : Dict[str, Dict]` is modelled as `String → Option Session`.
* `metadata.get(key, 0)` for the numeric keys the rules read is modelled as a
  record of those numeric fields, defaulting to 0.
* The anomaly model (`self.ml_model`) is an optional scoring function; a call
  that raises (caught at line 372 and turned into `return 0.0`) is modelled by
  the function returning `none`.
* Exceptions that the Python code catches and merely logs are modelled as the
  no-op the surrounding code performs.
-/

/-- Thresholds (source lines 41-44). Max tab switches per minute. -/
def TAB_SWITCH_THRESHOLD : Nat := 3

/-- Seconds of inactivity (source line 42). -/
def INACTIVITY_THRESHOLD : ℚ := 30

/-- Seconds without heartbeat (source line 43). -/
def HEARTBEAT_TIMEOUT : ℚ := 10

/-- ML model threshold (source line 44). -/
def SUSPICIOUS_SCORE_THRESHOLD : ℚ := 7/10

/-- `class EventType(Enum)` (source lines 46-56): the closed event enum. -/
inductive EventType where
  | tab_switch
  | inactivity
  | heartbeat
  | session_start
  | session_end
  | screen_lock
  | device_change
  | copy_paste
  | right_click
  | keyboard_shortcut
deriving DecidableEq, Repr

/-- `class SecurityLevel(Enum)` (source lines 58-62). -/
inductive SecurityLevel where
  | low
  | medium
  | high
  | critical
deriving DecidableEq, Repr, BEq

/-- Numeric metadata fields read by the rules, each defaulting to 0
(`metadata.get("duration", 0)` etc., source lines 302, 357-359). -/
structure Metadata where
  duration : ℚ := 0
  click_count : ℚ := 0
  keypress_count : ℚ := 0
deriving DecidableEq, Repr

/-- `@dataclass SessionEvent` (source lines 64-73), restricted to the fields
the pipeline and analyzer read. -/
structure SessionEvent where
  user_id : String
  session_id : String
  event_type : EventType
  timestamp : ℚ
  metadata : Metadata
deriving DecidableEq, Repr

/-- `@dataclass SecurityAlert` (source lines 75-85). -/
structure SecurityAlert where
  alert_id : String
  user_id : String
  session_id : String
  security_level : SecurityLevel
  event_type : EventType
  description : String
  timestamp : ℚ
  metadata : Metadata
  is_resolved : Bool := false
deriving DecidableEq, Repr

/-- One entry of `self.active_sessions` (the dict built at source lines 250-259). -/
structure Session where
  user_id : String
  start_time : ℚ
  last_heartbeat : ℚ
  status : String
  risk_score : ℚ
  event_count : Nat
  tab_switches : Nat
  last_tab_switch : Option ℚ
deriving DecidableEq, Repr

/-- `self.active_sessions : Dict[str, Dict]` (source line 102). -/
def Table : Type := String → Option Session

/-- The table at process start: empty. -/
def emptyTable : Table := fun _ => none

/-- `self.active_sessions[session_id] = ...`: create or overwrite one entry. -/
def tableInsert (t : Table) (sid : String) (s : Session) : Table :=
  fun x => if x = sid then some s else t x

/-- `if session_id in self.active_sessions: <mutate entry>`: apply `f` to the
entry if present, no-op otherwise. -/
def tableModify (t : Table) (sid : String) (f : Session → Session) : Table :=
  fun x => if x = sid then (t x).map f else t x

/-- The raw incoming event dict (`EventData`, source lines 87-94), before the
pipeline converts `event_type` to the enum. -/
structure RawEvent where
  user_id : String
  session_id : String
  event_type : String
  metadata : Metadata := {}
deriving DecidableEq, Repr

/-- `EventType(event_data["event_type"])` (source line 202): `none` models the
`ValueError` raised for a string outside the closed enum. -/
def eventTypeOfString (s : String) : Option EventType :=
  if s = "tab_switch" then some EventType.tab_switch
  else if s = "inactivity" then some EventType.inactivity
  else if s = "heartbeat" then some EventType.heartbeat
  else if s = "session_start" then some EventType.session_start
  else if s = "session_end" then some EventType.session_end
  else if s = "screen_lock" then some EventType.screen_lock
  else if s = "device_change" then some EventType.device_change
  else if s = "copy_paste" then some EventType.copy_paste
  else if s = "right_click" then some EventType.right_click
  else if s = "keyboard_shortcut" then some EventType.keyboard_shortcut
  else none

/-- `SessionMonitor.update_session_state` (source lines 245-277). Note the
final `event_count` increment (lines 276-277) runs for every event type,
including the `session_start` that just created the entry. -/
def update_session_state (e : SessionEvent) (t : Table) : Table :=
  let t1 : Table :=
    match e.event_type with
    | EventType.session_start =>
        tableInsert t e.session_id
          { user_id := e.user_id
            start_time := e.timestamp
            last_heartbeat := e.timestamp
            status := "active"
            risk_score := 0
            event_count := 0
            tab_switches := 0
            last_tab_switch := none }
    | EventType.heartbeat =>
        tableModify t e.session_id (fun s => { s with last_heartbeat := e.timestamp })
    | EventType.session_end =>
        tableModify t e.session_id (fun s => { s with status := "ended" })
    | EventType.tab_switch =>
        tableModify t e.session_id
          (fun s => { s with tab_switches := s.tab_switches + 1,
                             last_tab_switch := some e.timestamp })
    | _ => t
  tableModify t1 e.session_id (fun s => { s with event_count := s.event_count + 1 })

/-- `SessionMonitor._create_alert` (source lines 336-347).
`int(time.time())` truncates the (non-negative) wall clock to whole seconds,
modelled by `Rat.floor now`. -/
def create_alert (now : ℚ) (e : SessionEvent) (level : SecurityLevel)
    (description : String) : SecurityAlert :=
  { alert_id := "alert_" ++ toString now.floor ++ "_" ++ e.session_id
    user_id := e.user_id
    session_id := e.session_id
    security_level := level
    event_type := e.event_type
    description := description
    timestamp := e.timestamp
    metadata := e.metadata }

/-- The anomaly scorer: `self.ml_model` is either absent (`None`, source
line 130) or a function from the feature vector to a raw margin; a call that
raises is modelled by the function returning `none`. -/
def Scorer : Type := Option (List ℚ → Option ℚ)

/-- `SessionMonitor._calculate_ml_risk_score` (source lines 349-375): build the
6-feature vector, call the model, normalize `1 - (score + 0.5)` clamped into
[0,1]; any exception is caught and the function returns 0.0. -/
def calculate_ml_risk_score (f : List ℚ → Option ℚ) (e : SessionEvent)
    (s : Session) : ℚ :=
  let features : List ℚ :=
    [(s.event_count : ℚ), (s.tab_switches : ℚ), s.risk_score,
     e.metadata.duration, e.metadata.click_count, e.metadata.keypress_count]
  match f features with
  | some score => max 0 (min 1 (1 - (score + 1/2)))
  | none => 0

/-- The tab-switch burst check of `analyze_security` (source lines 289-298):
on a `tab_switch` event, if the time from `last_tab_switch` to the event
timestamp is under one minute and the cumulative `tab_switches` counter
exceeds the threshold, emit one `high` alert. -/
def tab_switch_rule (now : ℚ) (e : SessionEvent) (session : Session) :
    List SecurityAlert :=
  if e.event_type = EventType.tab_switch then
    match session.last_tab_switch with
    | some lts =>
        if e.timestamp - lts < 60 ∧ session.tab_switches > TAB_SWITCH_THRESHOLD then
          [create_alert now e SecurityLevel.high
            ("Excessive tab switching detected: " ++
              toString session.tab_switches ++ " switches in 1 minute")]
        else []
    | none => []
  else []

/-- The inactivity check of `analyze_security` (source lines 300-306). -/
def inactivity_rule (now : ℚ) (e : SessionEvent) : List SecurityAlert :=
  if e.event_type = EventType.inactivity ∧ e.metadata.duration > INACTIVITY_THRESHOLD then
    [create_alert now e SecurityLevel.medium
      ("User inactive for " ++ toString e.metadata.duration ++ " seconds")]
  else []

/-- The heartbeat-timeout check of `analyze_security` (source lines 308-315).
The Python `if session["last_heartbeat"]:` guard (line 309) is always true
because the stored value is a `datetime` (truthy); `last_heartbeat` is
modelled as a plain timestamp. -/
def heartbeat_rule (now : ℚ) (e : SessionEvent) (session : Session) :
    List SecurityAlert :=
  if now - session.last_heartbeat > HEARTBEAT_TIMEOUT then
    [create_alert now e SecurityLevel.critical
      ("Heartbeat timeout: " ++ toString (now - session.last_heartbeat) ++ " seconds")]
  else []

/-- The ML anomaly check of `analyze_security` (source lines 317-326): when a
scorer is configured, store its normalized output as the session risk score
unconditionally and emit a `high` alert when it exceeds the threshold; when
no scorer is configured, skip the rule. Returns the (possibly re-scored)
session and the rule alerts. -/
def ml_rule (scorer : Scorer) (now : ℚ) (e : SessionEvent) (session : Session) :
    Session × List SecurityAlert :=
  match scorer with
  | none => (session, [])
  | some f =>
    let risk := calculate_ml_risk_score f e session
    ({ session with risk_score := risk },
     if risk > SUSPICIOUS_SCORE_THRESHOLD then
       [create_alert now e SecurityLevel.high
         ("ML model flagged suspicious activity (score: " ++ toString risk ++ ")")]
     else [])

/-- `SessionMonitor.analyze_security` (source lines 279-334): skip unknown
sessions, evaluate the four checks in source order, store the alerts, and
clamp the risk score to at least 0.8 when any alert fired. Returns the
updated table and the alert list. -/
def analyze_security (scorer : Scorer) (now : ℚ) (e : SessionEvent) (t : Table) :
    Table × List SecurityAlert :=
  match t e.session_id with
  | none => (t, [])
  | some session =>
    let scored := ml_rule scorer now e session
    let alerts := tab_switch_rule now e session ++ inactivity_rule now e
      ++ heartbeat_rule now e session ++ scored.2
    let finalSession :=
      if alerts.isEmpty then scored.1
      else { scored.1 with risk_score := max scored.1.risk_score (8/10) }
    (tableInsert t e.session_id finalSession, alerts)

/-- `SessionMonitor.process_event` (source lines 195-223): convert the raw
event (a `ValueError` from an unknown `event_type` string is caught at line
222 and only logged, so the caller sees no error and no state changes), stamp
the ingestion time, update session state, then analyze. Storage and publish
steps touch only external collaborators and are omitted. -/
def process_event (scorer : Scorer) (now : ℚ) (raw : RawEvent) (t : Table) :
    Table × List SecurityAlert :=
  match eventTypeOfString raw.event_type with
  | none => (t, [])
  | some et =>
    let e : SessionEvent :=
      { user_id := raw.user_id
        session_id := raw.session_id
        event_type := et
        timestamp := now
        metadata := raw.metadata }
    analyze_security scorer now e (update_session_state e t)

/-- `SessionMonitor.cleanup_expired_sessions` (source lines 422-437): the
Reaper removes sessions that are ended, or whose last heartbeat is more than
300 seconds old. -/
def cleanup_expired_sessions (now : ℚ) (t : Table) : Table :=
  fun sid =>
    match t sid with
    | some s => if s.status = "ended" ∨ now - s.last_heartbeat > 300 then none else some s
    | none => none

/-- Run a list of (ingestion time, raw event) pairs through the pipeline,
collecting the alert list produced for each event. -/
def runTrace (scorer : Scorer) (evs : List (ℚ × RawEvent)) (t : Table) :
    Table × List (List SecurityAlert) :=
  match evs with
  | [] => (t, [])
  | (now, raw) :: rest =>
    let step := process_event scorer now raw t
    let restRun := runTrace scorer rest step.1
    (restRun.1, step.2 :: restRun.2)

/-! ## Concrete fixtures used to run the pipeline on explicit inputs -/

/-- A raw `tab_switch` event for session `sid` from user `u`. -/
def tabSwitchRaw (sid : String) : RawEvent :=
  { user_id := "u", session_id := sid, event_type := "tab_switch" }

/-- A raw `heartbeat` event for session `sid`. -/
def heartbeatRaw (sid : String) : RawEvent :=
  { user_id := "u", session_id := sid, event_type := "heartbeat" }

/-- A raw `session_start` event for session `sid`. -/
def sessionStartRaw (sid : String) : RawEvent :=
  { user_id := "u", session_id := sid, event_type := "session_start" }

/-- A raw `session_end` event for session `sid`. -/
def sessionEndRaw (sid : String) : RawEvent :=
  { user_id := "u", session_id := sid, event_type := "session_end" }

/-- The spec's tab-switch window-reset scenario: three tab switches at
t = 0, 5, 10, then (after a heartbeat keeping the heartbeat rule quiet) a
fourth tab switch at t = 100, far outside the 60-second window of the first
three. -/
def c1Events : List (ℚ × RawEvent) :=
  [(0, sessionStartRaw "s"), (0, tabSwitchRaw "s"), (5, tabSwitchRaw "s"),
   (10, tabSwitchRaw "s"), (95, heartbeatRaw "s"), (100, tabSwitchRaw "s")]

/-- A claim-C1 test: running `c1Events` through the pipeline (no scorer), the
severity lists per event. The code's cumulative `tab_switches` counter has
reached 4 by t = 100, and the analyzer compares the event timestamp with the
`last_tab_switch` value that `update_session_state` just set to that same
timestamp, so the burst rule fires a `high` alert at t = 100 even though only
one tab switch lies within the last 60 seconds. -/
theorem C1_cumulative_counter_fires_outside_window :
    ((runTrace none c1Events emptyTable).2).map (fun l => l.map SecurityAlert.security_level)
        = [[], [], [], [], [], [SecurityLevel.high]]
      ∧ Option.map Session.tab_switches ((runTrace none c1Events emptyTable).1 "s") = some 4 := by
  constructor
  · decide
  · decide

/-- A claim-C2 test: the pipeline performs no boundary validation. A
`session_start` whose `session_id` is the empty string is fully ingested — a
session keyed by `""` is created — and an event whose `event_type` string is
outside the closed enum is silently dropped (`process_event` catches the
`ValueError` and only logs it), with no error surfaced to the caller in
either case. -/
theorem C2_invalid_events_not_rejected :
    (((process_event none 0
        { user_id := "u", session_id := "", event_type := "session_start" }
        emptyTable).1 "").isSome = true)
      ∧ process_event none 0
          { user_id := "u", session_id := "s", event_type := "bogus" } emptyTable
          = (emptyTable, []) := by
  constructor
  · decide
  · rfl

/-- Claim C3 fails on the code: after processing a `session_start` event the
session's `event_count` is 1, not 0, because the per-event increment at
source lines 276-277 also runs for the creating event. -/
theorem C3_event_count_after_start_is_one :
    Option.map Session.event_count
        ((process_event none 0 (sessionStartRaw "s") emptyTable).1 "s") = some 1 := by
  decide

/-- A session with three recorded tab switches, a stale heartbeat and an
in-progress tab switch: the next `tab_switch` event makes both the burst rule
and the heartbeat rule fire in one evaluation. -/
def c9Session : Session :=
  { user_id := "u", start_time := 0, last_heartbeat := 0, status := "active",
    risk_score := 0, event_count := 5, tab_switches := 3, last_tab_switch := some 15 }

/-- Table holding only `c9Session` under key `"s"`. -/
def c9Table : Table := tableInsert emptyTable "s" c9Session

/-- A claim-C9 test: the two alerts produced for one `tab_switch` event at
t = 20 (a `high` burst alert and a `critical` heartbeat-timeout alert) carry
the identical `alert_id` string `"alert_20_s"`, because `_create_alert`
builds the id from the whole-second wall clock and the session id only. -/
theorem C9_two_alerts_share_alert_id :
    ((process_event none 20 (tabSwitchRaw "s") c9Table).2.map SecurityAlert.alert_id)
        = ["alert_20_s", "alert_20_s"]
      ∧ ((process_event none 20 (tabSwitchRaw "s") c9Table).2.map SecurityAlert.security_level)
        = [SecurityLevel.high, SecurityLevel.critical] := by
  constructor
  · decide
  · decide

/-- Claim C8 fails on the code: `session_start` for an already-ended session
unconditionally overwrites the entry. After start(t=0), end(t=1), start(t=2)
the status has gone from `"ended"` back to `"active"`. -/
theorem C8_second_start_reactivates_ended_session :
    Option.map Session.status
        ((runTrace none [(0, sessionStartRaw "s"), (1, sessionEndRaw "s")] emptyTable).1 "s")
        = some "ended"
      ∧ Option.map Session.status
          ((runTrace none
            [(0, sessionStartRaw "s"), (1, sessionEndRaw "s"), (2, sessionStartRaw "s")]
            emptyTable).1 "s")
        = some "active" := by
  constructor
  · decide
  · decide

/-- A scorer that succeeds (margin -1/10, normalized risk 3/5) when the
feature vector's `event_count` entry is 1 and raises otherwise: the model
works on the first processed event and fails on the second. -/
def c4Scorer : List ℚ → Option ℚ :=
  fun feats => if feats.getD 0 0 = 1 then some (-1/10) else none

/-- Table after a `session_start` at t = 0 scored successfully by `c4Scorer`
(risk 3/5). -/
def c4Table1 : Table := (process_event (some c4Scorer) 0 (sessionStartRaw "s") emptyTable).1

/-- Table after a further heartbeat at t = 1 on which `c4Scorer` fails. -/
def c4Table2 : Table := (process_event (some c4Scorer) 1 (heartbeatRaw "s") c4Table1).1

/-- Claim C4 fails on the code for a failing (present but raising) scorer:
after the first event the session's risk score is 3/5; the second event fires
no alert, yet its failing scorer call resets the risk score to 0 — the
scoring rule did not leave the risk score unchanged. (`_calculate_ml_risk_score`
catches the exception, returns 0.0, and the analyzer stores that 0.0.) -/
theorem C4_failing_scorer_resets_risk_score :
    Option.map Session.risk_score (c4Table1 "s") = some (3/5)
      ∧ (process_event (some c4Scorer) 1 (heartbeatRaw "s") c4Table1).2 = []
      ∧ Option.map Session.risk_score (c4Table2 "s") = some 0 := by
  refine ⟨?_, ?_, ?_⟩
  · decide
  · decide
  · decide


/-- Counting critical alerts in a one-alert list produced by `create_alert`. -/
lemma countP_critical_singleton (now : ℚ) (e : SessionEvent) (lvl : SecurityLevel)
    (d : String) :
    List.countP (fun a => decide (a.security_level = SecurityLevel.critical))
      [create_alert now e lvl d]
      = if lvl = SecurityLevel.critical then 1 else 0 := by
  rcases lvl <;> simp [create_alert, List.countP_cons, List.countP_nil]

/-- The tab-switch rule emits no `critical` alert. -/
lemma countP_critical_tab_switch_rule (now : ℚ) (e : SessionEvent) (s : Session) :
    List.countP (fun a => decide (a.security_level = SecurityLevel.critical))
      (tab_switch_rule now e s) = 0 := by
  unfold tab_switch_rule
  rcases h3 : s.last_tab_switch with _ | lts <;>
    · simp only [h3]
      split_ifs <;> simp only [countP_critical_singleton, List.countP_nil] <;> decide

/-- The inactivity rule emits no `critical` alert. -/
lemma countP_critical_inactivity_rule (now : ℚ) (e : SessionEvent) :
    List.countP (fun a => decide (a.security_level = SecurityLevel.critical))
      (inactivity_rule now e) = 0 := by
  unfold inactivity_rule
  split_ifs <;> simp [countP_critical_singleton]

/-- The heartbeat rule emits exactly one `critical` alert when the elapsed
time since `last_heartbeat` exceeds the timeout, none otherwise. -/
lemma countP_critical_heartbeat_rule (now : ℚ) (e : SessionEvent) (s : Session) :
    List.countP (fun a => decide (a.security_level = SecurityLevel.critical))
      (heartbeat_rule now e s)
      = if now - s.last_heartbeat > HEARTBEAT_TIMEOUT then 1 else 0 := by
  unfold heartbeat_rule
  split_ifs <;> simp [countP_critical_singleton]

/-- The ML rule emits no `critical` alert. -/
lemma countP_critical_ml_rule (scorer : Scorer) (now : ℚ) (e : SessionEvent) (s : Session) :
    List.countP (fun a => decide (a.security_level = SecurityLevel.critical))
      (ml_rule scorer now e s).2 = 0 := by
  unfold ml_rule
  rcases scorer with _ | f
  · simp
  · simp only []
    split_ifs <;> simp [countP_critical_singleton]

/-- Of the four rules, only the heartbeat-timeout rule emits a
`critical`-severity alert, so the number of critical alerts in one evaluation
for a known session is 1 exactly when the elapsed time since the session's
`last_heartbeat` exceeds `HEARTBEAT_TIMEOUT`, and 0 otherwise. -/
lemma countP_critical_analyze_security (scorer : Scorer) (now : ℚ) (e : SessionEvent)
    (t : Table) (s : Session) (hs : t e.session_id = some s) :
    ((analyze_security scorer now e t).2.countP
        (fun a => decide (a.security_level = SecurityLevel.critical)))
      = if now - s.last_heartbeat > HEARTBEAT_TIMEOUT then 1 else 0 := by
  unfold analyze_security
  rw [hs]
  simp only [List.countP_append, countP_critical_tab_switch_rule,
    countP_critical_inactivity_rule, countP_critical_heartbeat_rule,
    countP_critical_ml_rule]
  simp

/-- A session whose last heartbeat is at t = 0. -/
def c6Session : Session :=
  { user_id := "u", start_time := 0, last_heartbeat := 0, status := "active",
    risk_score := 0, event_count := 1, tab_switches := 0, last_tab_switch := none }

/-- Table holding only `c6Session` under key `"s"`. -/
def c6Table : Table := tableInsert emptyTable "s" c6Session

/-- A parsed `screen_lock` event for session `"s"` at t = 11 (an arbitrary
non-heartbeat event type, showing the heartbeat rule runs on every event). -/
def c6Event : SessionEvent :=
  { user_id := "u", session_id := "s", event_type := EventType.screen_lock,
    timestamp := 11, metadata := {} }

/-- C6: on any event for a known session, the analyzer emits exactly one
`critical` alert when the elapsed time since the session's `last_heartbeat`
exceeds `HEARTBEAT_TIMEOUT` (10 s), and no critical alert otherwise. -/
theorem C6_heartbeat_timeout_exactly_one_critical (scorer : Scorer) (now : ℚ)
    (e : SessionEvent) (t : Table) (s : Session) (hs : t e.session_id = some s) :
    ((analyze_security scorer now e t).2.countP
        (fun a => decide (a.security_level = SecurityLevel.critical)))
      = if now - s.last_heartbeat > HEARTBEAT_TIMEOUT then 1 else 0 :=
  countP_critical_analyze_security scorer now e t s hs

/-- Witness for C6 at a concrete input: a `screen_lock` event at t = 11 on a
session whose last heartbeat was at t = 0 yields exactly one critical alert. -/
theorem C6_heartbeat_timeout_exactly_one_critical_witness :
    ((analyze_security none 11 c6Event c6Table).2.countP
        (fun a => decide (a.security_level = SecurityLevel.critical))) = 1 := by
  have h := C6_heartbeat_timeout_exactly_one_critical none 11 c6Event c6Table c6Session rfl
  rw [h]
  decide

/-- C10: a `heartbeat` event on a known session never triggers the
heartbeat-timeout rule, whatever the gap since the previous heartbeat,
because `update_session_state` sets `last_heartbeat` to the ingestion time
before `analyze_security` measures the elapsed time. -/
theorem C10_heartbeat_event_never_fires_timeout (scorer : Scorer) (now : ℚ)
    (raw : RawEvent) (t : Table) (hty : raw.event_type = "heartbeat")
    (hs : (t raw.session_id).isSome = true) :
    ((process_event scorer now raw t).2.countP
        (fun a => decide (a.security_level = SecurityLevel.critical))) = 0 := by
  obtain ⟨s, hs'⟩ := Option.isSome_iff_exists.mp hs
  have hupd : (update_session_state
      { user_id := raw.user_id, session_id := raw.session_id,
        event_type := EventType.heartbeat, timestamp := now,
        metadata := raw.metadata } t) raw.session_id
      = some { s with last_heartbeat := now, event_count := s.event_count + 1 } := by
    simp [update_session_state, tableModify, hs']
  have h := countP_critical_analyze_security scorer now
      { user_id := raw.user_id, session_id := raw.session_id,
        event_type := EventType.heartbeat, timestamp := now, metadata := raw.metadata }
      (update_session_state
        { user_id := raw.user_id, session_id := raw.session_id,
          event_type := EventType.heartbeat, timestamp := now,
          metadata := raw.metadata } t)
      { s with last_heartbeat := now, event_count := s.event_count + 1 } hupd
  have hproc : process_event scorer now raw t
      = analyze_security scorer now
          { user_id := raw.user_id, session_id := raw.session_id,
            event_type := EventType.heartbeat, timestamp := now,
            metadata := raw.metadata }
          (update_session_state
            { user_id := raw.user_id, session_id := raw.session_id,
              event_type := EventType.heartbeat, timestamp := now,
              metadata := raw.metadata } t) := by
    simp [process_event, hty, eventTypeOfString]
  rw [hproc, h]
  simp [HEARTBEAT_TIMEOUT, sub_self]

/-- A table with a session whose last heartbeat is ancient (t = 0). -/
def c10Table : Table :=
  tableInsert emptyTable "s"
    { user_id := "u", start_time := 0, last_heartbeat := 0, status := "active",
      risk_score := 0, event_count := 3, tab_switches := 0, last_tab_switch := none }

/-- Witness for C10 at a concrete input: a heartbeat arriving at t = 1000 on a
session last heard from at t = 0 produces no critical alert. -/
theorem C10_heartbeat_event_never_fires_timeout_witness :
    ((process_event none 1000 (heartbeatRaw "s") c10Table).2.countP
        (fun a => decide (a.security_level = SecurityLevel.critical))) = 0 :=
  C10_heartbeat_event_never_fires_timeout none 1000 (heartbeatRaw "s") c10Table rfl rfl

/-- Looking up the key just written by `tableInsert` returns the new entry. -/
lemma tableInsert_self (t : Table) (sid : String) (s : Session) :
    tableInsert t sid s sid = some s := by
  simp [tableInsert]

/-- C5: whenever an evaluation fires at least one alert, the session's
post-update risk score is at least 0.8, whatever the scorer did. -/
theorem C5_risk_floor_after_alert (scorer : Scorer) (now : ℚ) (e : SessionEvent)
    (t : Table) (h : (analyze_security scorer now e t).2 ≠ []) :
    ∃ s', (analyze_security scorer now e t).1 e.session_id = some s'
      ∧ 8/10 ≤ s'.risk_score := by
  rcases hts : t e.session_id with _ | s
  · exact absurd (by simp [analyze_security, hts]) h
  · simp only [analyze_security, hts] at h ⊢
    split
    · next hE => exact absurd (List.isEmpty_iff.mp hE) h
    · exact ⟨_, tableInsert_self _ _ _, le_max_right _ _⟩

/-- Witness for C5 at a concrete input: the heartbeat-timeout alert at t = 11
on `c6Table` forces the stored risk score up to at least 0.8. -/
theorem C5_risk_floor_after_alert_witness :
    ∃ s', (analyze_security none 11 c6Event c6Table).1 c6Event.session_id = some s'
      ∧ 8/10 ≤ s'.risk_score :=
  C5_risk_floor_after_alert none 11 c6Event c6Table (by decide)

/-- Only the string `"session_start"` parses to `EventType.session_start`. -/
lemma eventTypeOfString_session_start (str : String)
    (h : eventTypeOfString str = some EventType.session_start) :
    str = "session_start" := by
  unfold eventTypeOfString at h
  split_ifs at h <;> simp_all

/-- C7: an event other than `session_start` whose session id is unknown is
accepted without error, produces no alert, and leaves the whole table
untouched. -/
theorem C7_unknown_session_no_alert_no_mutation (scorer : Scorer) (now : ℚ)
    (raw : RawEvent) (t : Table) (hne : raw.event_type ≠ "session_start")
    (hun : t raw.session_id = none) :
    (process_event scorer now raw t).2 = []
      ∧ ∀ sid, (process_event scorer now raw t).1 sid = t sid := by
  rcases hp : eventTypeOfString raw.event_type with _ | et
  · constructor
    · simp [process_event, hp]
    · intro sid
      simp [process_event, hp]
  · have hets : et ≠ EventType.session_start := by
      intro hcon
      subst hcon
      exact hne (eventTypeOfString_session_start raw.event_type hp)
    have hupd : ∀ sid, (update_session_state
        { user_id := raw.user_id, session_id := raw.session_id, event_type := et,
          timestamp := now, metadata := raw.metadata } t) sid = t sid := by
      intro sid
      by_cases hsk : sid = raw.session_id <;>
        cases et <;>
          simp_all [update_session_state, tableModify, tableInsert, hun]
    have hskip : (update_session_state
        { user_id := raw.user_id, session_id := raw.session_id, event_type := et,
          timestamp := now, metadata := raw.metadata } t) raw.session_id = none := by
      rw [hupd raw.session_id]
      exact hun
    constructor
    · simp [process_event, hp, analyze_security, hskip]
    · intro sid
      simp [process_event, hp, analyze_security, hskip, hupd sid]

/-- Witness for C7 at a concrete input: a heartbeat for the unknown session
`"ghost"` on the empty table changes nothing and alerts nothing. -/
theorem C7_unknown_session_no_alert_no_mutation_witness :
    (process_event none 5 (heartbeatRaw "ghost") emptyTable).2 = []
      ∧ ∀ sid, (process_event none 5 (heartbeatRaw "ghost") emptyTable).1 sid
          = emptyTable sid :=
  C7_unknown_session_no_alert_no_mutation none 5 (heartbeatRaw "ghost") emptyTable
    (by decide) rfl

/-- C3 (amended): processing a `session_start` event with no scorer
configured yields a session with `status = "active"`, `risk_score = 0`,
empty tab-switch history, `last_heartbeat` equal to the ingestion timestamp —
and `event_count = 1`, because the pipeline's per-event increment also counts
the creating event. No alert fires. -/
theorem C3_amended_session_start_state (u sid : String) (m : Metadata) (now : ℚ)
    (t : Table) :
    (process_event none now
        { user_id := u, session_id := sid, event_type := "session_start",
          metadata := m } t).1 sid
      = some { user_id := u, start_time := now, last_heartbeat := now,
               status := "active", risk_score := 0, event_count := 1,
               tab_switches := 0, last_tab_switch := none }
    ∧ (process_event none now
        { user_id := u, session_id := sid, event_type := "session_start",
          metadata := m } t).2 = [] := by
  have hupd : (update_session_state
      { user_id := u, session_id := sid, event_type := EventType.session_start,
        timestamp := now, metadata := m } t) sid
      = some { user_id := u, start_time := now, last_heartbeat := now,
               status := "active", risk_score := 0, event_count := 1,
               tab_switches := 0, last_tab_switch := none } := by
    simp [update_session_state, tableInsert, tableModify]
  have halerts :
      tab_switch_rule now
        { user_id := u, session_id := sid, event_type := EventType.session_start,
          timestamp := now, metadata := m }
        { user_id := u, start_time := now, last_heartbeat := now,
          status := "active", risk_score := 0, event_count := 1,
          tab_switches := 0, last_tab_switch := none } = []
      ∧ inactivity_rule now
        { user_id := u, session_id := sid, event_type := EventType.session_start,
          timestamp := now, metadata := m } = []
      ∧ heartbeat_rule now
        { user_id := u, session_id := sid, event_type := EventType.session_start,
          timestamp := now, metadata := m }
        { user_id := u, start_time := now, last_heartbeat := now,
          status := "active", risk_score := 0, event_count := 1,
          tab_switches := 0, last_tab_switch := none } = [] := by
    refine ⟨?_, ?_, ?_⟩
    · simp [tab_switch_rule]
    · simp [inactivity_rule]
    · simp [heartbeat_rule, HEARTBEAT_TIMEOUT, sub_self]
  constructor
  · simp [process_event, eventTypeOfString, analyze_security, hupd, ml_rule,
      halerts.1, halerts.2.1, halerts.2.2, tableInsert]
  · simp [process_event, eventTypeOfString, analyze_security, hupd, ml_rule,
      halerts.1, halerts.2.1, halerts.2.2]

/-- C4 (amended): a missing scorer contributes nothing — the rule-based
alerts are unchanged and the stored risk score is the pre-event one (raised
to 0.8 only by the risk floor when an alert fired). A present-but-failing
scorer produces the same alerts as no scorer and never fails the pipeline,
but it does not leave the risk score unchanged: the caught failure yields
0.0, which the analyzer stores (0.8 after the floor when an alert fired). -/
theorem C4_amended_scorer_degradation (now : ℚ) (e : SessionEvent) (t : Table)
    (s : Session) (f : List ℚ → Option ℚ) (hs : t e.session_id = some s)
    (hf : ∀ x, f x = none) :
    (analyze_security (some f) now e t).2 = (analyze_security none now e t).2
    ∧ (analyze_security none now e t).1 e.session_id
        = some (if (analyze_security none now e t).2.isEmpty then s
                else { s with risk_score := max s.risk_score (8/10) })
    ∧ (analyze_security (some f) now e t).1 e.session_id
        = some (if (analyze_security (some f) now e t).2.isEmpty then
                  { s with risk_score := 0 }
                else { s with risk_score := 8/10 }) := by
  have hcalc : calculate_ml_risk_score f e s = 0 := by
    simp [calculate_ml_risk_score, hf]
  have hml : ml_rule (some f) now e s = ({ s with risk_score := 0 }, []) := by
    simp only [ml_rule, hcalc]
    rw [if_neg (by norm_num [SUSPICIOUS_SCORE_THRESHOLD])]
  have hml0 : ml_rule none now e s = (s, []) := rfl
  have hmax : max (0 : ℚ) (8/10) = 8/10 := by norm_num
  refine ⟨?_, ?_, ?_⟩
  · simp [analyze_security, hs, hml, hml0]
  · simp [analyze_security, hs, hml0, tableInsert_self]
  · simp [analyze_security, hs, hml, tableInsert_self, hmax]

/-- Witness for C4 (amended) at a concrete input: on `c6Table` at t = 11 with
an always-failing scorer, the alert lists with and without the scorer agree. -/
theorem C4_amended_scorer_degradation_witness :
    (analyze_security (some (fun _ => none)) 11 c6Event c6Table).2
      = (analyze_security none 11 c6Event c6Table).2 :=
  (C4_amended_scorer_degradation 11 c6Event c6Table c6Session (fun _ => none)
    rfl (fun _ => rfl)).1

/-- `update_session_state` never deletes a table entry. -/
lemma update_session_state_isSome (e : SessionEvent) (t : Table) (sid : String)
    (h : (t sid).isSome = true) :
    ((update_session_state e t) sid).isSome = true := by
  by_cases hsk : sid = e.session_id <;>
    cases he : e.event_type <;>
      simp_all [update_session_state, tableModify, tableInsert]

/-- `analyze_security` never deletes a table entry. -/
lemma analyze_security_isSome (scorer : Scorer) (now : ℚ) (e : SessionEvent)
    (t : Table) (sid : String) (h : (t sid).isSome = true) :
    (((analyze_security scorer now e t).1) sid).isSome = true := by
  rcases hts : t e.session_id with _ | q
  · simpa [analyze_security, hts] using h
  · by_cases hsk : sid = e.session_id <;>
      simp_all [analyze_security, tableInsert]

/-- For any event type other than `session_start`, `update_session_state`
keeps an `"ended"` session ended. -/
lemma update_session_state_keeps_ended (e : SessionEvent) (t : Table) (sid : String)
    (s : Session) (h : t sid = some s) (hst : s.status = "ended")
    (hne : e.event_type ≠ EventType.session_start) :
    ∃ s', (update_session_state e t) sid = some s' ∧ s'.status = "ended" := by
  by_cases hsk : sid = e.session_id <;>
    cases he : e.event_type <;>
      simp_all [update_session_state, tableModify, tableInsert]

/-- The ML rule leaves every field but `risk_score` unchanged. -/
lemma ml_rule_fst_status (scorer : Scorer) (now : ℚ) (e : SessionEvent) (s : Session) :
    (ml_rule scorer now e s).1.status = s.status := by
  rcases scorer with _ | f <;> simp [ml_rule]

/-- `analyze_security` only rewrites the risk score, never the status. -/
lemma analyze_security_preserves_status (scorer : Scorer) (now : ℚ)
    (e : SessionEvent) (t : Table) (sid : String) :
    Option.map Session.status ((analyze_security scorer now e t).1 sid)
      = Option.map Session.status (t sid) := by
  rcases hts : t e.session_id with _ | q
  · simp [analyze_security, hts]
  · by_cases hsk : sid = e.session_id
    · subst hsk
      rw [hts]
      simp only [analyze_security, hts, tableInsert_self, Option.map_some]
      split <;> simp [ml_rule_fst_status]
    · simp [analyze_security, hts, tableInsert, hsk]

/-- C8 (amended): the pipeline never removes a session row (only the Reaper
does), and once a session is `"ended"` no event other than `session_start`
changes its status; a later `session_start` for that id, however, re-creates
the entry with status `"active"`. -/
theorem C8_amended_ended_terminal_except_restart (scorer : Scorer) (now : ℚ)
    (raw : RawEvent) (t : Table) (sid : String) (s : Session)
    (hsid : t sid = some s) :
    (((process_event scorer now raw t).1 sid).isSome = true)
    ∧ (s.status = "ended" → raw.event_type ≠ "session_start" →
        ∃ s', (process_event scorer now raw t).1 sid = some s'
          ∧ s'.status = "ended") := by
  constructor
  · rcases hp : eventTypeOfString raw.event_type with _ | et
    · simp [process_event, hp, hsid]
    · have h1 := update_session_state_isSome
        { user_id := raw.user_id, session_id := raw.session_id, event_type := et,
          timestamp := now, metadata := raw.metadata } t sid (by simp [hsid])
      have h2 := analyze_security_isSome scorer now
        { user_id := raw.user_id, session_id := raw.session_id, event_type := et,
          timestamp := now, metadata := raw.metadata } _ sid h1
      simpa [process_event, hp] using h2
  · intro hst hne
    rcases hp : eventTypeOfString raw.event_type with _ | et
    · exact ⟨s, by simp [process_event, hp, hsid], hst⟩
    · have hets : et ≠ EventType.session_start := by
        intro hcon
        subst hcon
        exact hne (eventTypeOfString_session_start raw.event_type hp)
      obtain ⟨s1, hs1, hs1e⟩ := update_session_state_keeps_ended
        { user_id := raw.user_id, session_id := raw.session_id, event_type := et,
          timestamp := now, metadata := raw.metadata } t sid s hsid hst hets
      have hmap := analyze_security_preserves_status scorer now
        { user_id := raw.user_id, session_id := raw.session_id, event_type := et,
          timestamp := now, metadata := raw.metadata }
        (update_session_state
          { user_id := raw.user_id, session_id := raw.session_id, event_type := et,
            timestamp := now, metadata := raw.metadata } t) sid
      rw [hs1] at hmap
      rcases h2 : ((analyze_security scorer now
          { user_id := raw.user_id, session_id := raw.session_id, event_type := et,
            timestamp := now, metadata := raw.metadata }
          (update_session_state
            { user_id := raw.user_id, session_id := raw.session_id, event_type := et,
              timestamp := now, metadata := raw.metadata } t)).1) sid with _ | s2
      · rw [h2] at hmap
        exact absurd hmap (by simp)
      · rw [h2] at hmap
        simp at hmap
        refine ⟨s2, ?_, by rw [hmap, hs1e]⟩
        simpa [process_event, hp] using h2

/-- A table holding one already-ended session. -/
def c8Table : Table :=
  tableInsert emptyTable "s"
    { user_id := "u", start_time := 0, last_heartbeat := 0, status := "ended",
      risk_score := 0, event_count := 2, tab_switches := 0, last_tab_switch := none }

/-- Witness for C8 (amended) at a concrete input: a heartbeat at t = 3 on an
ended session keeps the row present and keeps its status `"ended"`. -/
theorem C8_amended_ended_terminal_except_restart_witness :
    (((process_event none 3 (heartbeatRaw "s") c8Table).1 "s").isSome = true)
    ∧ (∃ s', (process_event none 3 (heartbeatRaw "s") c8Table).1 "s" = some s'
        ∧ s'.status = "ended") := by
  have h := C8_amended_ended_terminal_except_restart none 3 (heartbeatRaw "s")
    c8Table "s"
    { user_id := "u", start_time := 0, last_heartbeat := 0, status := "ended",
      risk_score := 0, event_count := 2, tab_switches := 0, last_tab_switch := none }
    rfl
  exact ⟨h.1, h.2 rfl (by decide)⟩
